import Mathlib

/-!
Verification of the natural-language-to-SQL safety core of the `cashflow`
repository (`src/app/services/nlq_service.py`, class `NLQService`).

The Python code parses a candidate SQL string with the external `sqlglot`
library into a tree of expression nodes and then walks that tree.  We embed
the walked tree shape as the inductive type `Expr` (only the node kinds the
validator distinguishes: `Select`, `Table`, `Column`, `Alias`, `Anonymous`,
other `Func` subclasses, and a generic catch-all carrying its class name),
and the validator, the intent classifier, the template library, the SQL
generator and the query executor as Lean functions translated from the
Python source.  The external collaborators (the sqlglot parser, the sqlglot
SQL renderer used by `str(statement)`, the LLM provider, the database and
the natural-language summarizer) are passed in as explicit function
parameters; a simple concrete renderer `renderSql` modelling sqlglot's
output format is provided for concrete test inputs.
-/

namespace Cashflow

/-- Model of the Python substring test `needle in hay` on character lists:
`prefixMatch p q` is true when `p` is a leading segment of `q`. -/
def prefixMatch : List Char → List Char → Bool
  | [], _ => true
  | _ :: _, [] => false
  | c :: cs, d :: ds => c == d && prefixMatch cs ds

/-- True when `needle` occurs contiguously inside `hay`. -/
def hasSubList (needle : List Char) : List Char → Bool
  | [] => prefixMatch needle []
  | d :: ds => prefixMatch needle (d :: ds) || hasSubList needle ds

/-- Model of Python `needle in hay` for strings. -/
def hasSub (hay needle : String) : Bool :=
  hasSubList needle.toList hay.toList

/-- Python `str.upper()` (ASCII case mapping, as used on SQL text). -/
def upperStr (s : String) : String :=
  ⟨s.toList.map Char.toUpper⟩

/-- Python `str.lower()` (ASCII case mapping, as used on identifiers). -/
def lowerStr (s : String) : String :=
  ⟨s.toList.map Char.toLower⟩

/-- Whitespace characters removed by Python `str.strip()`. -/
def isPySpace (c : Char) : Bool :=
  c == ' ' || c == '\t' || c == '\n' || c == '\r' || c == '\x0b' || c == '\x0c'

/-- Python `str.strip()`: drop leading and trailing whitespace. -/
def stripStr (s : String) : String :=
  ⟨((s.toList.dropWhile isPySpace).reverse.dropWhile isPySpace).reverse⟩

/-- Shape of the sqlglot expression tree as inspected by the validator in
`nlq_service.py`.  The walkers only distinguish the node classes `Select`,
`Table`, `Column`, `Alias`, `Anonymous` and other subclasses of `Func`;
every other node (clauses, operators, identifiers, literals, and non-select
statements such as `Insert` or `Drop`) is traversed generically, so it is
modelled by `other` carrying its sqlglot class name and its child nodes
(the flattening of `node.args.values()`). -/
inductive Expr where
  | select (exprs : List Expr) (rest : List Expr)
  | table (name : String) (tblAlias : String)
  | column (name : String) (tableRef : String)
  | aliasNode (e : Expr) (aliasName : String)
  | anonymousFunc (name : String) (args : List Expr)
  | funcNode (className : String) (args : List Expr)
  | other (className : String) (args : List Expr)

/-- True exactly for `sqlglot.expressions.Select` statements
(`isinstance(statement, sqlglot.expressions.Select)`). -/
def isSelect : Expr → Bool
  | .select _ _ => true
  | _ => false

mutual

/-- All nodes of a tree in depth-first visit order: the node itself followed
by the nodes of every child.  This is the set of nodes visited by the
Python walkers' generic recursion over `node.args.values()`. -/
def allNodes : Expr → List Expr
  | .select exprs rest => .select exprs rest :: (allNodesList exprs ++ allNodesList rest)
  | .table n a => [.table n a]
  | .column n t => [.column n t]
  | .aliasNode e a => .aliasNode e a :: allNodes e
  | .anonymousFunc n args => .anonymousFunc n args :: allNodesList args
  | .funcNode c args => .funcNode c args :: allNodesList args
  | .other c args => .other c args :: allNodesList args

/-- Nodes of a list of trees, in order. -/
def allNodesList : List Expr → List Expr
  | [] => []
  | e :: es => allNodes e ++ allNodesList es

end

/-- `NLQService.ALLOWED_SCHEMA`: the table → column whitelist. -/
def ALLOWED_SCHEMA : List (String × List String) :=
  [("transactions",
    ["id", "transaction_date", "vendor_id", "amount", "category",
     "normalized_description", "raw_description", "source", "source_type",
     "statement_id", "quickbooks_id", "quickbooks_connection_id",
     "quickbooks_sync_version", "created_at", "updated_at"]),
   ("vendors",
    ["id", "name", "normalized_name", "embedding", "created_at", "updated_at"]),
   ("statements",
    ["id", "source_file", "period_start", "period_end",
     "account_type", "processed_at", "created_at"]),
   ("anomalies",
    ["id", "transaction_id", "anomaly_type", "severity", "description",
     "expected_value", "actual_value", "confidence", "detected_at",
     "resolved_at", "notes"]),
   ("nlq_queries",
    ["id", "user_query", "generated_sql", "parameters", "execution_time_ms",
     "result_count", "error_message", "executed_successfully", "created_at"])]

/-- Columns of a whitelisted table, `ALLOWED_SCHEMA.get(table_name, [])`. -/
def allowedColumns (tableName : String) : List String :=
  (ALLOWED_SCHEMA.lookup tableName).getD []

/-- Python `table_name in ALLOWED_SCHEMA` (key membership). -/
def tableAllowed (tableName : String) : Bool :=
  (ALLOWED_SCHEMA.lookup tableName).isSome

/-- `NLQService.ALLOWED_FUNCTIONS`: the function whitelist. -/
def ALLOWED_FUNCTIONS : List String :=
  ["SUM", "COUNT", "AVG", "MIN", "MAX",
   "DATE_TRUNC", "DATETRUNC", "EXTRACT", "NOW", "CURRENT_DATE", "CURRENTDATE",
   "CURRENT_TIMESTAMP", "CURRENTTIMESTAMP", "DATE", "INTERVAL",
   "UPPER", "LOWER", "LENGTH", "COALESCE", "TRIM", "CONCAT",
   "ABS", "ROUND", "FLOOR", "CEIL",
   "Sum", "Count", "Avg", "Min", "Max",
   "DateTrunc", "Extract", "Now", "CurrentDate", "CurrentTimestamp",
   "Upper", "Lower", "Coalesce", "Abs", "Round", "Trim", "Concat",
   "Floor", "Ceil", "Date", "Interval"]

/-- The `ALLOWED_OPERATORS` set local to `_validate_function_usage`. -/
def ALLOWED_OPERATORS : List String :=
  ["AND", "OR", "NOT", "EQ", "NEQ", "LT", "LTE", "GT", "GTE",
   "IN", "LIKE", "BETWEEN", "IS", "ISNULL", "NOTNULL",
   "ADD", "SUB", "MUL", "DIV", "MOD", "NEG",
   "ALIAS", "CAST", "CASE", "IF", "NULLIF",
   "PAREN", "PARENTHESIS", "BRACKET",
   "LITERAL", "BOOLEAN", "NULL", "STAR",
   "ORDER", "ORDERBY", "GROUP", "GROUPBY", "LIMIT", "OFFSET",
   "WHERE", "HAVING", "JOIN", "ON", "USING",
   "SELECT", "FROM", "TABLE", "COLUMN", "IDENTIFIER"]

/-- The `dangerous_keywords` list of `_contains_dangerous_operations`. -/
def dangerousKeywords : List String :=
  ["INSERT", "UPDATE", "DELETE", "DROP", "CREATE", "ALTER",
   "TRUNCATE", "EXEC", "EXECUTE", "UNION", "UNION ALL"]

/-- `_contains_dangerous_operations`: uppercase the rendered statement text
(`str(statement).upper()`) and scan for any dangerous keyword as a
substring.  The rendering function (sqlglot's SQL generator) is a
parameter. -/
def containsDangerousOperations (render : Expr → String) (statement : Expr) : Bool :=
  let sqlStr := upperStr (render statement)
  dangerousKeywords.any (fun keyword => hasSub sqlStr keyword)

/-- The transient alias state built by the first pass of
`_validate_table_references`: `table_aliases` maps alias tokens to
canonical table names (later assignments shadow earlier ones, modelled by
prepending), `column_aliases` is the set of select-list output aliases. -/
structure AliasMaps where
  tableAliases : List (String × String)
  columnAliases : List String
deriving Repr

mutual

/-- The `extract_aliases(node, in_select)` pre-pass of
`_validate_table_references`.  A `Table` node records
`alias-or-name → name` (both lowercased); an `Alias` node inside a select
context records its output alias; a `Select` node first walks its
projection list with `in_select=True`; every node then recurses generically
over its children with the current flag. -/
def extractAliases (node : Expr) (inSelect : Bool) (acc : AliasMaps) : AliasMaps :=
  match node with
  | .select exprs rest =>
    let acc := extractAliasesList exprs true acc
    let acc := extractAliasesList exprs inSelect acc
    extractAliasesList rest inSelect acc
  | .table name tblAlias =>
    let tableName := lowerStr name
    let a := if tblAlias ≠ "" then tblAlias else tableName
    if a ≠ "" then
      { acc with tableAliases := (lowerStr a, tableName) :: acc.tableAliases }
    else acc
  | .aliasNode e aliasName =>
    let acc :=
      if inSelect ∧ aliasName ≠ "" then
        { acc with columnAliases := lowerStr aliasName :: acc.columnAliases }
      else acc
    extractAliases e inSelect acc
  | .column _ _ => acc
  | .anonymousFunc _ args => extractAliasesList args inSelect acc
  | .funcNode _ args => extractAliasesList args inSelect acc
  | .other _ args => extractAliasesList args inSelect acc

/-- Sequential fold of `extractAliases` over a child list. -/
def extractAliasesList (es : List Expr) (inSelect : Bool) (acc : AliasMaps) : AliasMaps :=
  match es with
  | [] => acc
  | e :: es => extractAliasesList es inSelect (extractAliases e inSelect acc)

end

/-- The per-node body of `check_references` in `_validate_table_references`
(the generic child recursion is factored out through `allNodes`): a `Table`
node needs its lowercased name to be a whitelist key; a qualified `Column`
resolves its table token through the alias map and needs the column in that
table's whitelist (`*` and the empty name are not checked); an unqualified
`Column` is accepted when it is a recorded select-list alias or occurs in
some whitelisted table's column list.  All other nodes pass. -/
def refOK (m : AliasMaps) : Expr → Bool
  | .table name _ => tableAllowed (lowerStr name)
  | .column cname tref =>
    let columnName := lowerStr cname
    if tref ≠ "" then
      let tableRef := lowerStr tref
      let tableName := (m.tableAliases.lookup tableRef).getD tableRef
      if ¬ tableAllowed tableName then false
      else if columnName ≠ "" ∧ columnName ∉ allowedColumns tableName ∧ columnName ≠ "*" then
        false
      else true
    else
      if columnName ≠ "" ∧ columnName ≠ "*" then
        if columnName ∈ m.columnAliases then true
        else if ∃ kv ∈ ALLOWED_SCHEMA, columnName ∈ kv.2 then true
        else false
      else true
  | _ => true

/-- `_validate_table_references`: run the alias pre-pass over the whole
statement, then require every visited node to pass `refOK`.  The Python
walker returns `True` exactly when every node it visits passes its local
check, which is what the `List.all` over the depth-first node list
states. -/
def validateTableReferences (statement : Expr) : Bool :=
  let m := extractAliases statement false ⟨[], []⟩
  (allNodes statement).all (refOK m)

/-- The per-node body of `check_functions` in `_validate_function_usage`:
an `Anonymous` function's uppercased name must be in `ALLOWED_FUNCTIONS`;
any other `Func` subclass passes when its uppercased class name is in
`ALLOWED_OPERATORS`, and otherwise must be in `ALLOWED_FUNCTIONS`.  All
other nodes pass. -/
def funcOK : Expr → Bool
  | .anonymousFunc name _ =>
    if upperStr name ∈ ALLOWED_FUNCTIONS then true else false
  | .funcNode className _ =>
    let funcName := upperStr className
    if funcName ∈ ALLOWED_OPERATORS then true
    else if funcName ≠ "" ∧ funcName ∉ ALLOWED_FUNCTIONS then false
    else true
  | _ => true

/-- `_validate_function_usage`: every visited node passes `funcOK`. -/
def validateFunctionUsage (statement : Expr) : Bool :=
  (allNodes statement).all funcOK

/-- The per-statement loop of `_validate_sql_safety`: each parsed statement
must be a `Select`, pass the dangerous-keyword scan, the table/column
reference check and the function check; the first failure returns `False`
with the corresponding message. -/
def validateStatements (render : Expr → String) : List Expr → Bool × String
  | [] => (true, "SQL is safe")
  | statement :: rest =>
    if isSelect statement = false then
      (false, "Only SELECT statements are allowed")
    else if containsDangerousOperations render statement = true then
      (false, "SQL contains disallowed operations")
    else if validateTableReferences statement = false then
      (false, "SQL references disallowed tables or columns")
    else if validateFunctionUsage statement = false then
      (false, "SQL uses disallowed functions")
    else validateStatements render rest

/-- `_validate_sql_safety` after parsing: an empty parse result is rejected
with "Failed to parse SQL", otherwise every statement is checked. -/
def validateSqlSafety (render : Expr → String) (parsed : List Expr) : Bool × String :=
  if parsed.isEmpty then (false, "Failed to parse SQL")
  else validateStatements render parsed

/-- `_validate_sql_safety` on a SQL string, with the external sqlglot
parser supplied as a function; `none` models a parser exception, which the
surrounding `try` turns into a validation-error rejection. -/
def validateSqlSafetyStr (parse : String → Option (List Expr))
    (render : Expr → String) (sql : String) : Bool × String :=
  match parse sql with
  | none => (false, "SQL validation error: parse failure")
  | some parsed => validateSqlSafety render parsed

/-- Python `sep.join(parts)`. -/
def joinWith (sep : String) : List String → String
  | [] => ""
  | [x] => x
  | x :: xs => x ++ sep ++ joinWith sep xs

mutual

/-- Model of the sqlglot SQL renderer (`str(statement)`) on the embedded
tree, used to supply concrete rendered text to the dangerous-keyword scan:
keywords and function names are rendered uppercase, identifiers as
written.  Only the presence of keywords as substrings matters to the
validator, so clause layout is simplified. -/
def renderSql : Expr → String
  | .select exprs rest => "SELECT " ++ renderCommas exprs ++ renderSpaced rest
  | .table name tblAlias =>
    if tblAlias ≠ "" then name ++ " AS " ++ tblAlias else name
  | .column name tableRef =>
    if tableRef ≠ "" then tableRef ++ "." ++ name else name
  | .aliasNode e aliasName => renderSql e ++ " AS " ++ aliasName
  | .anonymousFunc name args => name ++ "(" ++ renderCommas args ++ ")"
  | .funcNode className args => upperStr className ++ "(" ++ renderCommas args ++ ")"
  | .other className args => upperStr className ++ renderSpaced args

/-- Comma-separated rendering of a node list. -/
def renderCommas : List Expr → String
  | [] => ""
  | [e] => renderSql e
  | e :: es => renderSql e ++ ", " ++ renderCommas es

/-- Space-prefixed rendering of trailing clause nodes. -/
def renderSpaced : List Expr → String
  | [] => ""
  | e :: es => " " ++ renderSql e ++ renderSpaced es

end

/-- Remove a fixed leading marker if present (`re.sub(r'^...', '', s)`). -/
def stripLeading (marker s : String) : String :=
  if prefixMatch marker.toList s.toList = true then
    ⟨s.toList.drop marker.toList.length⟩
  else s

/-- Remove a fixed trailing marker if present (`re.sub(r'...$', '', s)`). -/
def stripTrailing (marker s : String) : String :=
  if prefixMatch marker.toList.reverse s.toList.reverse = true then
    ⟨(s.toList.reverse.drop marker.toList.length).reverse⟩
  else s

/-- The markdown code-fence cleanup applied by `_generate_sql_with_llm` to
the provider's raw completion: strip whitespace, remove a leading
"```sql" or "```" fence line, remove a trailing "```" fence, strip again. -/
def stripFences (raw : String) : String :=
  let s := stripStr raw
  let s := stripLeading "```sql\n" s
  let s := stripLeading "```\n" s
  let s := stripTrailing "\n```" s
  stripStr s

/-- A calendar date, standing in for Python `datetime` values in the query
parameters; only its `%Y-%m-%d` rendering is observable here. -/
structure Date where
  year : Nat
  month : Nat
  day : Nat

/-- Zero-pad to two digits (`%m`, `%d`). -/
def pad2 (n : Nat) : String :=
  if n < 10 then "0" ++ toString n else toString n

/-- Zero-pad to four digits (`%Y`). -/
def pad4 (n : Nat) : String :=
  if n < 10 then "000" ++ toString n
  else if n < 100 then "00" ++ toString n
  else if n < 1000 then "0" ++ toString n
  else toString n

/-- `d.strftime('%Y-%m-%d')`. -/
def formatYMD (d : Date) : String :=
  pad4 d.year ++ "-" ++ pad2 d.month ++ "-" ++ pad2 d.day

/-- The `parameters` dictionary of the NLQ service: optional `date_from`,
`date_to` and `limit` entries. -/
structure NLQParams where
  dateFrom : Option Date
  dateTo : Option Date
  limit : Option Nat

/-- `_generate_date_filter`: one comparison per supplied bound, joined by
" AND ", degenerating to "1=1" when no bound is supplied. -/
def generateDateFilter (dateFrom dateTo : Option Date) : String :=
  let filters :=
    (match dateFrom with
     | some d => ["transaction_date >= '" ++ formatYMD d ++ "'"]
     | none => []) ++
    (match dateTo with
     | some d => ["transaction_date <= '" ++ formatYMD d ++ "'"]
     | none => [])
  if filters.isEmpty then "1=1" else joinWith " AND " filters

/-- `NLQService.QUERY_TEMPLATES`: the intent → SQL template table. -/
def QUERY_TEMPLATES : List (String × String) :=
  [("total_spend", "SELECT SUM(amount) as total FROM transactions WHERE amount < 0 AND {date_filter}"),
   ("total_income", "SELECT SUM(amount) as total FROM transactions WHERE amount > 0 AND {date_filter}"),
   ("spend_by_month", "SELECT DATE_TRUNC('month', transaction_date) as month, SUM(amount) as total FROM transactions WHERE amount < 0 AND {date_filter} GROUP BY month ORDER BY month"),
   ("income_by_month", "SELECT DATE_TRUNC('month', transaction_date) as month, SUM(amount) as total FROM transactions WHERE amount > 0 AND {date_filter} GROUP BY month ORDER BY month"),
   ("top_vendors", "SELECT v.name, SUM(t.amount) as total FROM transactions t JOIN vendors v ON t.vendor_id = v.id WHERE t.amount < 0 AND {date_filter} GROUP BY v.id, v.name ORDER BY total ASC LIMIT {limit}"),
   ("spend_by_category", "SELECT category, SUM(amount) as total FROM transactions WHERE amount < 0 AND category IS NOT NULL AND {date_filter} GROUP BY category ORDER BY total ASC"),
   ("transaction_count", "SELECT COUNT(*) as count FROM transactions WHERE {date_filter}"),
   ("average_transaction", "SELECT AVG(amount) as average FROM transactions WHERE {date_filter}"),
   ("recent_transactions", "SELECT t.id, t.transaction_date, t.vendor_id, t.amount, t.category, t.normalized_description, v.name FROM transactions t LEFT JOIN vendors v ON t.vendor_id = v.id WHERE {date_filter} ORDER BY t.transaction_date DESC LIMIT {limit}"),
   ("anomalies_count", "SELECT COUNT(*) as count FROM anomalies WHERE {date_filter}"),
   ("unresolved_anomalies", "SELECT a.id, a.transaction_id, a.anomaly_type, a.severity, a.description, t.amount, v.name FROM anomalies a JOIN transactions t ON a.transaction_id = t.id LEFT JOIN vendors v ON t.vendor_id = v.id WHERE a.resolved_at IS NULL AND {date_filter} ORDER BY a.detected_at DESC")]

/-- Replace every left-to-right non-overlapping occurrence of a nonempty
`pattern` by `replacement`; the `fuel` argument (instantiated with the text
length) only makes the recursion structural. -/
def replaceChars (pattern replacement : List Char) : Nat → List Char → List Char
  | _, [] => []
  | 0, l => l
  | fuel + 1, c :: cs =>
    if prefixMatch pattern (c :: cs) = true then
      replacement ++ replaceChars pattern replacement fuel (List.drop (pattern.length - 1) cs)
    else c :: replaceChars pattern replacement fuel cs

/-- Python `str.replace` for a nonempty pattern. -/
def replaceStr (s pattern replacement : String) : String :=
  ⟨replaceChars pattern.toList replacement.toList s.toList.length s.toList⟩

/-- `template.format(date_filter=..., limit=...)`: substitute both
placeholders (substituting an absent placeholder is a no-op, as with
`str.format` ignoring unused keyword arguments). -/
def formatTemplate (template dateFilter : String) (limit : Nat) : String :=
  replaceStr (replaceStr template "{date_filter}" dateFilter) "{limit}" (toString limit)

/-- `_select_query_template`: `None` for an unmapped query type, otherwise
the template with the date filter substituted and the row limit defaulting
to 100. -/
def selectQueryTemplate (queryType : String) (parameters : NLQParams) : Option String :=
  match QUERY_TEMPLATES.lookup queryType with
  | none => none
  | some template =>
    let dateFilter := generateDateFilter parameters.dateFrom parameters.dateTo
    some (formatTemplate template dateFilter (parameters.limit.getD 100))

/-- Python `any(word in q for word in words)`. -/
def anyWordIn (words : List String) (q : String) : Bool :=
  words.any (fun w => hasSub q w)

/-- `_classify_query_intent`: ordered case-insensitive keyword rules with a
`recent_transactions` fallback. -/
def classifyQueryIntent (query : String) : String :=
  let queryLower := lowerStr query
  if anyWordIn ["total", "sum", "spend", "spent"] queryLower then
    if hasSub queryLower "income" || hasSub queryLower "revenue" || hasSub queryLower "earned" then
      "total_income"
    else "total_spend"
  else if anyWordIn ["monthly", "month", "trend"] queryLower then
    if hasSub queryLower "income" then "income_by_month" else "spend_by_month"
  else if anyWordIn ["vendor", "merchant", "company"] queryLower then "top_vendors"
  else if hasSub queryLower "category" then "spend_by_category"
  else if anyWordIn ["count", "number", "how many"] queryLower then "transaction_count"
  else if hasSub queryLower "average" then "average_transaction"
  else if anyWordIn ["recent", "latest", "last"] queryLower then "recent_transactions"
  else if hasSub queryLower "anomal" then "anomalies_count"
  else "recent_transactions"

/-- Every keyword appearing in some rule of `_classify_query_intent`. -/
def classifierKeywords : List String :=
  ["total", "sum", "spend", "spent", "income", "revenue", "earned",
   "monthly", "month", "trend", "vendor", "merchant", "company",
   "category", "count", "number", "how many", "average",
   "recent", "latest", "last", "anomal"]

/-- The intents `_classify_query_intent` can return. -/
def intentValues : List String :=
  ["total_income", "total_spend", "income_by_month", "spend_by_month",
   "top_vendors", "spend_by_category", "transaction_count",
   "average_transaction", "recent_transactions", "anomalies_count"]

/-- `NLQService.generate_sql`: call the LLM provider (`_generate_sql_with_llm`,
whose prompt assembly and network call are abstracted into the `llm`
parameter and whose code-fence cleanup is `stripFences`), then validate the
candidate; a passing candidate is returned tagged "llm_generated", a
failing one raises `Generated SQL failed safety check`.  The template
library and intent classifier are not consulted. -/
def generateSql (parse : String → Option (List Expr)) (render : Expr → String)
    (llm : String → NLQParams → Except String String)
    (query : String) (parameters : NLQParams) : Except String (String × String) :=
  match llm query parameters with
  | Except.error e => Except.error ("Failed to generate SQL with LLM: " ++ e)
  | Except.ok raw =>
    let sql := stripFences raw
    let v := validateSqlSafetyStr parse render sql
    if v.1 = true then Except.ok (sql, "llm_generated")
    else Except.error ("Generated SQL failed safety check: " ++ v.2)

/-- A result row, `dict(zip(columns, row))`. -/
abbrev Row := List (String × String)

/-- The `nlq_queries` audit record created by `execute_query`
(model `NLQQuery`). -/
structure NLQQueryRecord where
  userQuery : String
  generatedSql : String
  parameters : String
  executionTimeMs : Nat
  resultCount : Option Nat
  errorMessage : Option String
  executedSuccessfully : Bool

/-- The dictionary returned by `execute_query` (absent keys are `none`). -/
structure QueryResult where
  success : Bool
  sql : Option String
  intent : Option String
  results : Option (List Row)
  executionTimeMs : Nat
  resultCount : Option Nat
  naturalLanguageResponse : String
  summary : Option String
  error : Option String

/-- Model of `json.dumps(parameters or {})` at the audit-record
construction sites: Python's default JSON encoder has no handler for
`datetime` and these call sites pass no `default=`, so a supplied
`date_from`/`date_to` bound raises
`TypeError: Object of type datetime is not JSON serializable`; parameters
holding at most an integer limit serialize to a JSON object text
(simplified rendering). -/
def paramsDumps (p : NLQParams) : Except String String :=
  if p.dateFrom.isSome || p.dateTo.isSome then
    Except.error "Object of type datetime is not JSON serializable"
  else
    match p.limit with
    | some n => Except.ok ("\x7b\"limit\": " ++ toString n ++ "\x7d")
    | none => Except.ok "\x7b\x7d"

/-- `NLQService.execute_query`: generate and validate SQL, execute it,
summarize, and append one audit record.  Any error raised inside the `try`
block is caught and logged with `generated_sql = getattr(e, 'sql', '')`,
which is the empty string because no exception in the service carries a
`sql` attribute.  Serializing the parameters for the record
(`json.dumps(parameters or {})`, evaluated at record construction on both
the success and the failure path) raises `TypeError` when a `datetime`
bound is present — as the web layer supplies: a raise in the `try` block's
record construction is caught, the `except` block's own record
construction raises the same `TypeError` again, and the call propagates it
having written no record at all; this outcome is the `Except.error` first
component with an empty record list.  The database executor and the
natural-language summarizer are oracles, and `elapsedMs` stands for the
`(time.time() - start_time) * 1000` measurement.  The returned list holds
the records added to the query log by this call. -/
def executeQuery (parse : String → Option (List Expr)) (render : Expr → String)
    (llm : String → NLQParams → Except String String)
    (dbExec : String → Except String (List Row))
    (nlg : String → String → List Row → Nat → String)
    (query : String) (parameters : Option NLQParams) (elapsedMs : Nat) :
    Except String QueryResult × List NLQQueryRecord :=
  let p := parameters.getD ⟨none, none, none⟩
  match generateSql parse render llm query p with
  | Except.error e =>
    match paramsDumps p with
    | Except.error te => (Except.error te, [])
    | Except.ok js =>
      (Except.ok
        { success := false, sql := none, intent := none, results := none,
          executionTimeMs := elapsedMs, resultCount := none,
          naturalLanguageResponse :=
            "I encountered an error while processing your query: " ++ e,
          summary := none, error := some e },
       [{ userQuery := query, generatedSql := "", parameters := js,
          executionTimeMs := elapsedMs, resultCount := none,
          errorMessage := some e, executedSuccessfully := false }])
  | Except.ok (sql, intent) =>
    match dbExec sql with
    | Except.error e =>
      match paramsDumps p with
      | Except.error te => (Except.error te, [])
      | Except.ok js =>
        (Except.ok
          { success := false, sql := none, intent := none, results := none,
            executionTimeMs := elapsedMs, resultCount := none,
            naturalLanguageResponse :=
              "I encountered an error while processing your query: " ++ e,
            summary := none, error := some e },
         [{ userQuery := query, generatedSql := "", parameters := js,
            executionTimeMs := elapsedMs, resultCount := none,
            errorMessage := some e, executedSuccessfully := false }])
    | Except.ok rows =>
      let nlr := nlg query sql rows elapsedMs
      match paramsDumps p with
      | Except.error te => (Except.error te, [])
      | Except.ok js =>
        (Except.ok
          { success := true, sql := some sql, intent := some intent,
            results := some rows, executionTimeMs := elapsedMs,
            resultCount := some rows.length, naturalLanguageResponse := nlr,
            summary := some nlr, error := none },
         [{ userQuery := query, generatedSql := sql, parameters := js,
            executionTimeMs := elapsedMs, resultCount := some rows.length,
            errorMessage := none, executedSuccessfully := true }])

/-- The property that `check_references` enforces on one column node, given
the alias state: a qualified column resolves its table token through the
alias map to a whitelisted table holding the column (`*` and the empty name
pass), an unqualified column is a select-list alias or a column of some
whitelisted table (`*` and the empty name pass). -/
def columnRefOK (m : AliasMaps) (cname tref : String) : Prop :=
  if tref ≠ "" then
    (tableAllowed ((m.tableAliases.lookup (lowerStr tref)).getD (lowerStr tref)) = true) ∧
      (lowerStr cname = "" ∨ lowerStr cname = "*" ∨
        lowerStr cname ∈ allowedColumns ((m.tableAliases.lookup (lowerStr tref)).getD (lowerStr tref)))
  else
    lowerStr cname = "" ∨ lowerStr cname = "*" ∨ lowerStr cname ∈ m.columnAliases ∨
      ∃ kv ∈ ALLOWED_SCHEMA, lowerStr cname ∈ kv.2

/-- Modelled sqlglot parse of Scenario D's candidate
`SELECT category, SUM(amount) AS total_spent FROM transactions GROUP BY category ORDER BY total_spent ASC`. -/
def scenarioDAst : Expr :=
  .select
    [.column "category" "",
     .aliasNode (.funcNode "Sum" [.column "amount" ""]) "total_spent"]
    [.other "From" [.table "transactions" ""],
     .other "Group" [.column "category" ""],
     .other "Order" [.other "Ordered" [.column "total_spent" ""]]]

/-- Modelled sqlglot parse of `SELECT id FROM users` (Scenario C: a table
outside the whitelist). -/
def usersAst : Expr :=
  .select [.column "id" ""] [.other "From" [.table "users" ""]]

/-- Modelled sqlglot parse of `SELECT created_at FROM transactions`. -/
def createdAtAst : Expr :=
  .select [.column "created_at" ""] [.other "From" [.table "transactions" ""]]

/-- Modelled sqlglot parse of `SELECT updated_at FROM transactions`. -/
def updatedAtAst : Expr :=
  .select [.column "updated_at" ""] [.other "From" [.table "transactions" ""]]

/-- Modelled sqlglot parse of `SELECT id FROM transactions`. -/
def simpleIdAst : Expr :=
  .select [.column "id" ""] [.other "From" [.table "transactions" ""]]

/-- Modelled sqlglot parse of a two-table join with short aliases,
`SELECT t.amount, v.name FROM transactions t JOIN vendors v ON t.vendor_id = v.id`
(Scenario E). -/
def joinAst : Expr :=
  .select
    [.column "amount" "t", .column "name" "v"]
    [.other "From" [.table "transactions" "t"],
     .other "Join" [.table "vendors" "v",
                    .other "EQ" [.column "vendor_id" "t", .column "id" "v"]]]

/-- Modelled sqlglot parse of the rendered `total_spend` template
`SELECT SUM(amount) as total FROM transactions WHERE amount < 0 AND 1=1`. -/
def totalSpendTemplateAst : Expr :=
  .select
    [.aliasNode (.funcNode "Sum" [.column "amount" ""]) "total"]
    [.other "From" [.table "transactions" ""],
     .other "Where" [.other "And"
       [.other "LT" [.column "amount" "", .other "Literal" []],
        .other "EQ" [.other "Literal" [], .other "Literal" []]]]]

/-- Modelled sqlglot parse of `DROP TABLE transactions`. -/
def dropAst : Expr :=
  .other "Drop" [.table "transactions" ""]

/-- The rendered `total_spend` template with empty parameters. -/
def totalSpendTemplateSql : String :=
  "SELECT SUM(amount) as total FROM transactions WHERE amount < 0 AND 1=1"

/-- A concrete parse oracle recognizing the two SQL strings arising in the
generation scenario. -/
def scenarioParse (s : String) : Option (List Expr) :=
  if s = totalSpendTemplateSql then some [totalSpendTemplateAst]
  else if s = "SELECT id FROM transactions" then some [simpleIdAst]
  else if s = "DROP TABLE transactions" then some [dropAst]
  else none

/-- A provider oracle answering every prompt with a fixed safe statement. -/
def fixedSelectLlm (_ : String) (_ : NLQParams) : Except String String :=
  Except.ok "SELECT id FROM transactions"

/-- A provider oracle answering every prompt with a destructive statement. -/
def fixedDropLlm (_ : String) (_ : NLQParams) : Except String String :=
  Except.ok "DROP TABLE transactions"

/-- A database oracle that always fails. -/
def failingDb (_ : String) : Except String (List Row) :=
  Except.error "no database"

/-- A database oracle returning no rows. -/
def emptyDb (_ : String) : Except String (List Row) :=
  Except.ok []

/-- A trivial natural-language summarizer oracle. -/
def trivialNlg (_ : String) (_ : String) (_ : List Row) (_ : Nat) : String :=
  "summary"

/-- Parameters with no date bounds and no limit (`{}`). -/
def emptyParams : NLQParams := ⟨none, none, none⟩

/-! ### Helper lemmas -/

theorem validateStatements_true_iff (render : Expr → String) (stmts : List Expr) :
    (validateStatements render stmts).1 = true ↔
      ∀ s ∈ stmts, isSelect s = true ∧ containsDangerousOperations render s = false ∧
        validateTableReferences s = true ∧ validateFunctionUsage s = true := by
  induction stmts with
  | nil => simp [validateStatements]
  | cons s rest ih =>
    rw [List.forall_mem_cons, ← ih]
    by_cases h1 : isSelect s = false
    · simp [validateStatements, h1]
    · by_cases h2 : containsDangerousOperations render s = true
      · simp [validateStatements, h1, h2]
      · by_cases h3 : validateTableReferences s = false
        · simp [validateStatements, h1, h2, h3]
        · by_cases h4 : validateFunctionUsage s = false
          · simp [validateStatements, h1, h2, h3, h4]
          · simp [validateStatements, h1, h2, h3, h4]

theorem validateSqlSafety_true_iff (render : Expr → String) (parsed : List Expr) :
    (validateSqlSafety render parsed).1 = true ↔
      parsed ≠ [] ∧
        ∀ s ∈ parsed, isSelect s = true ∧ containsDangerousOperations render s = false ∧
          validateTableReferences s = true ∧ validateFunctionUsage s = true := by
  unfold validateSqlSafety
  by_cases h : parsed.isEmpty
  · rw [List.isEmpty_iff] at h
    simp [h]
  · rw [List.isEmpty_iff] at h
    simp [h, List.isEmpty_iff, validateStatements_true_iff]

theorem accepted_forall (render : Expr → String) (parsed : List Expr)
    (h : (validateSqlSafety render parsed).1 = true) :
    ∀ s ∈ parsed, isSelect s = true ∧ containsDangerousOperations render s = false ∧
      validateTableReferences s = true ∧ validateFunctionUsage s = true :=
  ((validateSqlSafety_true_iff render parsed).mp h).2

theorem rejected_of_check_failure (render : Expr → String) (parsed : List Expr) (s : Expr)
    (hs : s ∈ parsed)
    (h : ¬ (isSelect s = true ∧ containsDangerousOperations render s = false ∧
      validateTableReferences s = true ∧ validateFunctionUsage s = true)) :
    (validateSqlSafety render parsed).1 = false := by
  cases hb : (validateSqlSafety render parsed).1 with
  | false => rfl
  | true => exact absurd (accepted_forall render parsed hb s hs) h

theorem self_mem_allNodes (e : Expr) : e ∈ allNodes e := by
  cases e <;> simp [allNodes]

theorem refOK_column_true_iff (m : AliasMaps) (cname tref : String) :
    refOK m (.column cname tref) = true ↔ columnRefOK m cname tref := by
  by_cases ht : tref = ""
  · subst ht
    simp only [refOK, columnRefOK]
    by_cases h0 : lowerStr cname ≠ "" ∧ lowerStr cname ≠ "*"
    · rw [if_pos h0]
      by_cases ha : lowerStr cname ∈ m.columnAliases
      · simp [ha]
      · by_cases he : ∃ kv ∈ ALLOWED_SCHEMA, lowerStr cname ∈ kv.2
        · simp [ha, he]
        · simp [ha, he]
          tauto
    · rw [if_neg h0]
      push_neg at h0
      constructor
      · intro _
        by_cases hc : lowerStr cname = ""
        · exact Or.inl hc
        · exact Or.inr (Or.inl (h0 hc))
      · intro _; trivial
  · have ht' : tref ≠ "" := ht
    simp only [refOK, columnRefOK, if_pos ht, if_pos ht']
    by_cases hA : tableAllowed ((m.tableAliases.lookup (lowerStr tref)).getD (lowerStr tref)) = true
    · rw [if_neg (by simp [hA])]
      by_cases hP : lowerStr cname ≠ "" ∧
          lowerStr cname ∉ allowedColumns ((m.tableAliases.lookup (lowerStr tref)).getD (lowerStr tref)) ∧
          lowerStr cname ≠ "*"
      · rw [if_pos hP]
        simp only [hA, true_and]
        constructor
        · intro h; cases h
        · intro h; exact absurd h (by tauto)
      · rw [if_neg hP]
        push_neg at hP
        simp only [hA, true_and]
        constructor
        · intro _
          by_cases hc : lowerStr cname = ""
          · exact Or.inl hc
          · by_cases hs : lowerStr cname = "*"
            · exact Or.inr (Or.inl hs)
            · exact Or.inr (Or.inr (by tauto))
        · intro _; trivial
    · rw [if_pos (by simp [hA])]
      simp [hA]

/-! ### Claim theorems -/

/-- C1: every SQL accepted by `_validate_sql_safety` has every parsed
top-level statement a read-only select and free of dangerous keywords in
its rendered text; conversely a parse list containing a non-select
statement, or a statement whose rendered text contains a dangerous
keyword, is rejected — either signal alone suffices. -/
theorem nlq_c1_select_only_and_keyword_scan :
    ∀ (render : Expr → String) (parsed : List Expr),
      ((validateSqlSafety render parsed).1 = true →
        ∀ s ∈ parsed, isSelect s = true ∧ containsDangerousOperations render s = false) ∧
      (∀ s ∈ parsed, (isSelect s = false ∨ containsDangerousOperations render s = true) →
        (validateSqlSafety render parsed).1 = false) := by
  intro render parsed
  constructor
  · intro h s hs
    have hall := accepted_forall render parsed h s hs
    exact ⟨hall.1, hall.2.1⟩
  · intro s hs hbad
    apply rejected_of_check_failure render parsed s hs
    intro hall
    rcases hbad with hb | hb
    · rw [hall.1] at hb; cases hb
    · rw [hall.2.1] at hb; cases hb

/-- Witness for C1 at a concrete input: a parse yielding an insert
statement is rejected. -/
theorem nlq_c1_witness :
    (validateSqlSafety renderSql [Expr.other "Insert" []]).1 = false :=
  (nlq_c1_select_only_and_keyword_scan renderSql [Expr.other "Insert" []]).2
    (Expr.other "Insert" []) (by simp) (Or.inl rfl)

/-- C2: in accepted SQL every table reference's lowercased name is a key of
`ALLOWED_SCHEMA`; and the concrete candidate `SELECT id FROM users`, whose
table is not whitelisted, is rejected with the unknown-table message. -/
theorem nlq_c2_tables_whitelisted :
    (∀ (render : Expr → String) (parsed : List Expr) (s : Expr) (name tblAlias : String),
        (validateSqlSafety render parsed).1 = true → s ∈ parsed →
        Expr.table name tblAlias ∈ allNodes s → tableAllowed (lowerStr name) = true) ∧
      validateSqlSafety renderSql [usersAst] =
        (false, "SQL references disallowed tables or columns") := by
  constructor
  · intro render parsed s name tblAlias h hs hmem
    have htab := (accepted_forall render parsed h s hs).2.2.1
    simp only [validateTableReferences] at htab
    have := List.all_eq_true.mp htab _ hmem
    simpa [refOK] using this
  · decide

/-- Witness for C2 at a concrete accepted input: the join query of
Scenario E is accepted and its `transactions` reference is whitelisted. -/
theorem nlq_c2_witness : tableAllowed (lowerStr "transactions") = true :=
  (nlq_c2_tables_whitelisted).1 renderSql [joinAst] joinAst "transactions" "t"
    (by decide) (by simp) (by simp [joinAst, allNodes, allNodesList])

/-- C3: in accepted SQL every column reference satisfies the whitelist
discipline relative to the alias maps extracted from its statement —
qualified columns resolve to a whitelisted table containing the column
(`*` always permitted), unqualified columns are select-list aliases or
columns of some whitelisted table — and any column reference violating
this causes rejection. -/
theorem nlq_c3_columns_whitelisted :
    (∀ (render : Expr → String) (parsed : List Expr) (s : Expr) (cname tref : String),
        (validateSqlSafety render parsed).1 = true → s ∈ parsed →
        Expr.column cname tref ∈ allNodes s →
        columnRefOK (extractAliases s false ⟨[], []⟩) cname tref) ∧
    (∀ (render : Expr → String) (parsed : List Expr) (s : Expr) (cname tref : String),
        s ∈ parsed → Expr.column cname tref ∈ allNodes s →
        ¬ columnRefOK (extractAliases s false ⟨[], []⟩) cname tref →
        (validateSqlSafety render parsed).1 = false) := by
  constructor
  · intro render parsed s cname tref h hs hmem
    have htab := (accepted_forall render parsed h s hs).2.2.1
    simp only [validateTableReferences] at htab
    exact (refOK_column_true_iff _ cname tref).mp (List.all_eq_true.mp htab _ hmem)
  · intro render parsed s cname tref hs hmem hbad
    apply rejected_of_check_failure render parsed s hs
    intro hall
    apply hbad
    have htab := hall.2.2.1
    simp only [validateTableReferences] at htab
    exact (refOK_column_true_iff _ cname tref).mp (List.all_eq_true.mp htab _ hmem)

/-- Witness for C3 at a concrete accepted input: in the Scenario E join the
qualified reference `t.amount` resolves through the alias map and is
whitelisted. -/
theorem nlq_c3_witness :
    columnRefOK (extractAliases joinAst false ⟨[], []⟩) "amount" "t" :=
  (nlq_c3_columns_whitelisted).1 renderSql [joinAst] joinAst "amount" "t"
    (by decide) (by simp) (by simp [joinAst, allNodes, allNodesList])

/-- C4: in accepted SQL every typed function node's uppercased class name
is a structural operator or a function-whitelist member, and every
anonymous function's uppercased name is a function-whitelist member; the
whitelist is closed under uppercasing (so membership of the uppercased name
is exactly case-insensitive matching) and the structural-operator set is
uppercase-fixed (so operators are never checked against the function
whitelist); any function node outside both sets causes rejection. -/
theorem nlq_c4_functions_whitelisted :
    (∀ (render : Expr → String) (parsed : List Expr) (s : Expr)
        (className : String) (args : List Expr),
        (validateSqlSafety render parsed).1 = true → s ∈ parsed →
        Expr.funcNode className args ∈ allNodes s → upperStr className ≠ "" →
        upperStr className ∈ ALLOWED_OPERATORS ∨ upperStr className ∈ ALLOWED_FUNCTIONS) ∧
    (∀ (render : Expr → String) (parsed : List Expr) (s : Expr)
        (name : String) (args : List Expr),
        (validateSqlSafety render parsed).1 = true → s ∈ parsed →
        Expr.anonymousFunc name args ∈ allNodes s →
        upperStr name ∈ ALLOWED_FUNCTIONS) ∧
    (∀ m ∈ ALLOWED_FUNCTIONS, upperStr m ∈ ALLOWED_FUNCTIONS) ∧
    (∀ m ∈ ALLOWED_OPERATORS, upperStr m = m) ∧
    (∀ (render : Expr → String) (parsed : List Expr) (s : Expr)
        (className : String) (args : List Expr),
        s ∈ parsed → Expr.funcNode className args ∈ allNodes s →
        upperStr className ≠ "" → upperStr className ∉ ALLOWED_OPERATORS →
        upperStr className ∉ ALLOWED_FUNCTIONS →
        (validateSqlSafety render parsed).1 = false) ∧
    (∀ (render : Expr → String) (parsed : List Expr) (s : Expr)
        (name : String) (args : List Expr),
        s ∈ parsed → Expr.anonymousFunc name args ∈ allNodes s →
        upperStr name ∉ ALLOWED_FUNCTIONS →
        (validateSqlSafety render parsed).1 = false) := by
  refine ⟨?_, ?_, by decide, by decide, ?_, ?_⟩
  · intro render parsed s className args h hs hmem hne
    have hfun := (accepted_forall render parsed h s hs).2.2.2
    simp only [validateFunctionUsage] at hfun
    have hf := List.all_eq_true.mp hfun _ hmem
    simp only [funcOK] at hf
    by_cases hop : upperStr className ∈ ALLOWED_OPERATORS
    · exact Or.inl hop
    · rw [if_neg hop] at hf
      by_cases hfn : upperStr className ∈ ALLOWED_FUNCTIONS
      · exact Or.inr hfn
      · rw [if_pos ⟨hne, hfn⟩] at hf; cases hf
  · intro render parsed s name args h hs hmem
    have hfun := (accepted_forall render parsed h s hs).2.2.2
    simp only [validateFunctionUsage] at hfun
    have hf := List.all_eq_true.mp hfun _ hmem
    simp only [funcOK] at hf
    by_cases hfn : upperStr name ∈ ALLOWED_FUNCTIONS
    · exact hfn
    · rw [if_neg hfn] at hf; cases hf
  · intro render parsed s className args hs hmem hne hop hfn
    apply rejected_of_check_failure render parsed s hs
    intro hall
    have hfun := hall.2.2.2
    simp only [validateFunctionUsage] at hfun
    have hf := List.all_eq_true.mp hfun _ hmem
    simp only [funcOK] at hf
    rw [if_neg hop, if_pos ⟨hne, hfn⟩] at hf
    cases hf
  · intro render parsed s name args hs hmem hfn
    apply rejected_of_check_failure render parsed s hs
    intro hall
    have hfun := hall.2.2.2
    simp only [validateFunctionUsage] at hfun
    have hf := List.all_eq_true.mp hfun _ hmem
    simp only [funcOK] at hf
    rw [if_neg hfn] at hf
    cases hf

/-- Witness for C4 at a concrete accepted input: the `Sum` node of the
Scenario D statement is a structural operator or whitelist member. -/
theorem nlq_c4_witness :
    upperStr "Sum" ∈ ALLOWED_OPERATORS ∨ upperStr "Sum" ∈ ALLOWED_FUNCTIONS :=
  (nlq_c4_functions_whitelisted).1 renderSql [scenarioDAst] scenarioDAst "Sum"
    [Expr.column "amount" ""] (by decide) (by simp)
    (by simp [scenarioDAst, allNodes, allNodesList]) (by decide)

/-- C7: the validator accepts Scenario D's candidate
`SELECT category, SUM(amount) AS total_spent FROM transactions GROUP BY category ORDER BY total_spent ASC`,
and the alias pre-pass records `total_spent` as a select-list alias. -/
theorem nlq_c7_order_by_alias_accepted :
    validateSqlSafety renderSql [scenarioDAst] = (true, "SQL is safe") ∧
      "total_spent" ∈ (extractAliases scenarioDAst false ⟨[], []⟩).columnAliases :=
  ⟨by decide, by decide⟩

theorem prefixMatch_trans {p q r : List Char} (hpq : prefixMatch p q = true)
    (hqr : prefixMatch q r = true) : prefixMatch p r = true := by
  induction p generalizing q r with
  | nil => rfl
  | cons c cs ih =>
    cases q with
    | nil => exact absurd hpq (by simp [prefixMatch])
    | cons d ds =>
      cases r with
      | nil => exact absurd hqr (by simp [prefixMatch])
      | cons e es =>
        simp only [prefixMatch, Bool.and_eq_true, beq_iff_eq] at hpq hqr ⊢
        exact ⟨hpq.1.trans hqr.1, ih hpq.2 hqr.2⟩

theorem hasSubList_mono {p q : List Char} (hay : List Char)
    (hpq : prefixMatch p q = true) (hq : hasSubList q hay = true) :
    hasSubList p hay = true := by
  induction hay with
  | nil =>
    simp only [hasSubList] at hq ⊢
    exact prefixMatch_trans hpq hq
  | cons d ds ih =>
    simp only [hasSubList, Bool.or_eq_true] at hq ⊢
    rcases hq with hq | hq
    · exact Or.inl (prefixMatch_trans hpq hq)
    · exact Or.inr (ih hq)

theorem hasSub_mono (hay n₁ n₂ : String) (hp : prefixMatch n₁.toList n₂.toList = true)
    (h : hasSub hay n₂ = true) : hasSub hay n₁ = true :=
  hasSubList_mono _ hp h

/-- C8: the dangerous-operation check is a plain substring scan over the
uppercased rendered statement text, so any statement whose rendered text
contains a dangerous keyword — in particular as part of a larger
identifier such as `created_at` or `updated_at`, both of which are
whitelisted columns of `transactions` — is rejected; concretely,
`SELECT created_at FROM transactions` and `SELECT updated_at FROM transactions`
pass the table/column whitelist check yet are rejected by the keyword
scan. -/
theorem nlq_c8_keyword_scan_rejects_identifiers :
    (∀ (render : Expr → String) (parsed : List Expr) (s : Expr) (kw : String),
        s ∈ parsed → kw ∈ dangerousKeywords →
        hasSub (upperStr (render s)) kw = true →
        (validateSqlSafety render parsed).1 = false) ∧
    (∀ (render : Expr → String) (parsed : List Expr) (s : Expr),
        s ∈ parsed → hasSub (upperStr (render s)) "CREATED_AT" = true →
        (validateSqlSafety render parsed).1 = false) ∧
    (∀ (render : Expr → String) (parsed : List Expr) (s : Expr),
        s ∈ parsed → hasSub (upperStr (render s)) "UPDATED_AT" = true →
        (validateSqlSafety render parsed).1 = false) ∧
    "created_at" ∈ allowedColumns "transactions" ∧
    "updated_at" ∈ allowedColumns "transactions" ∧
    validateSqlSafety renderSql [createdAtAst] =
      (false, "SQL contains disallowed operations") ∧
    validateTableReferences createdAtAst = true ∧
    validateSqlSafety renderSql [updatedAtAst] =
      (false, "SQL contains disallowed operations") ∧
    validateTableReferences updatedAtAst = true := by
  have hmain : ∀ (render : Expr → String) (parsed : List Expr) (s : Expr) (kw : String),
      s ∈ parsed → kw ∈ dangerousKeywords →
      hasSub (upperStr (render s)) kw = true →
      (validateSqlSafety render parsed).1 = false := by
    intro render parsed s kw hs hkw hsub
    apply rejected_of_check_failure render parsed s hs
    intro hall
    have hdang : containsDangerousOperations render s = true := by
      simp only [containsDangerousOperations, List.any_eq_true]
      exact ⟨kw, hkw, hsub⟩
    rw [hall.2.1] at hdang
    cases hdang
  refine ⟨hmain, ?_, ?_, by decide, by decide, by decide, by decide, by decide, by decide⟩
  · intro render parsed s hs hsub
    exact hmain render parsed s "CREATE" hs (by decide)
      (hasSub_mono _ "CREATE" "CREATED_AT" (by decide) hsub)
  · intro render parsed s hs hsub
    exact hmain render parsed s "UPDATE" hs (by decide)
      (hasSub_mono _ "UPDATE" "UPDATED_AT" (by decide) hsub)

/-- Witness for C8 at a concrete input: the query selecting `created_at`
renders to text containing `CREATED_AT`, so it is rejected. -/
theorem nlq_c8_witness :
    (validateSqlSafety renderSql [createdAtAst]).1 = false :=
  (nlq_c8_keyword_scan_rejects_identifiers).2.1 renderSql [createdAtAst] createdAtAst
    (by simp) (by decide)

/-- C5 counterexample: with a provider answering `SELECT id FROM transactions`,
`generate_sql("total spend")` returns that SQL tagged `"llm_generated"` —
a tag that is neither `"template"` nor `"llm"` — even though the intent
classifier maps the question to `total_spend`, whose template renders a
candidate that the validator would accept; the template library is never
consulted. -/
theorem nlq_c5_counterexample :
    generateSql scenarioParse renderSql fixedSelectLlm "total spend" emptyParams =
        Except.ok ("SELECT id FROM transactions", "llm_generated") ∧
      ("llm_generated" : String) ≠ "template" ∧
      ("llm_generated" : String) ≠ "llm" ∧
      classifyQueryIntent "total spend" = "total_spend" ∧
      selectQueryTemplate "total_spend" emptyParams = some totalSpendTemplateSql ∧
      (validateSqlSafetyStr scenarioParse renderSql totalSpendTemplateSql).1 = true ∧
      totalSpendTemplateSql ≠ "SELECT id FROM transactions" :=
  ⟨by rfl, by decide, by decide, by decide, by decide, by decide, by decide⟩

/-- C5 (amended): `generate_sql` never consults the template library — for
every parser, renderer and provider, a successful result is always the
provider's code-fence-stripped completion, tagged `"llm_generated"`, and it
has passed the safety validator. -/
theorem nlq_c5_generator_is_llm_only :
    ∀ (parse : String → Option (List Expr)) (render : Expr → String)
      (llm : String → NLQParams → Except String String)
      (query : String) (parameters : NLQParams) (sql src : String),
      generateSql parse render llm query parameters = Except.ok (sql, src) →
      src = "llm_generated" ∧ (validateSqlSafetyStr parse render sql).1 = true ∧
        ∃ raw, llm query parameters = Except.ok raw ∧ sql = stripFences raw := by
  intro parse render llm query parameters sql src h
  unfold generateSql at h
  cases hl : llm query parameters with
  | error e =>
    rw [hl] at h
    simp at h
  | ok raw =>
    rw [hl] at h
    dsimp only at h
    by_cases hv : (validateSqlSafetyStr parse render (stripFences raw)).1 = true
    · rw [if_pos hv] at h
      rw [Except.ok.injEq, Prod.mk.injEq] at h
      refine ⟨h.2.symm, ?_, raw, rfl, h.1.symm⟩
      rw [← h.1]
      exact hv
    · rw [if_neg hv] at h
      simp at h

/-- Witness for C5's amended theorem at a concrete input. -/
theorem nlq_c5_witness :
    ∃ raw, fixedSelectLlm "total spend" emptyParams = Except.ok raw ∧
      "SELECT id FROM transactions" = stripFences raw :=
  (nlq_c5_generator_is_llm_only scenarioParse renderSql fixedSelectLlm "total spend"
    emptyParams "SELECT id FROM transactions" "llm_generated" (by rfl)).2.2

theorem paramsDumps_ok_of_no_dates (p : NLQParams) (h1 : p.dateFrom = none)
    (h2 : p.dateTo = none) : ∃ js, paramsDumps p = Except.ok js := by
  cases hl : p.limit <;> simp [paramsDumps, h1, h2, hl]

theorem paramsDumps_error_of_date (p : NLQParams)
    (h : p.dateFrom ≠ none ∨ p.dateTo ≠ none) :
    paramsDumps p = Except.error "Object of type datetime is not JSON serializable" := by
  have hb : (p.dateFrom.isSome || p.dateTo.isSome) = true := by
    rcases h with h | h
    · simp [Option.isSome_iff_ne_none, h]
    · simp [Option.isSome_iff_ne_none, h]
  simp [paramsDumps, hb]

/-- C6 counterexample: with a provider answering `DROP TABLE transactions`
the attempt is rejected by validation and the single audit record stores
the empty string as `generated_sql` — not the attempted SQL text; and with
a datetime date bound supplied (as the web layer does), `json.dumps`
raises at both logging sites, so the call propagates a TypeError and
writes no record at all. -/
theorem nlq_c6_counterexample :
    (executeQuery scenarioParse renderSql fixedDropLlm failingDb trivialNlg
        "drop the table" none 7).2.map (fun r => r.generatedSql) = [""] ∧
      fixedDropLlm "drop the table" emptyParams = Except.ok "DROP TABLE transactions" ∧
      stripFences "DROP TABLE transactions" = "DROP TABLE transactions" ∧
      ("DROP TABLE transactions" : String) ≠ "" ∧
      (executeQuery scenarioParse renderSql fixedSelectLlm emptyDb trivialNlg
        "total spend in january"
        (some ⟨some ⟨2024, 1, 1⟩, some ⟨2024, 1, 31⟩, some 100⟩) 9).2 = [] ∧
      (executeQuery scenarioParse renderSql fixedSelectLlm emptyDb trivialNlg
        "total spend in january"
        (some ⟨some ⟨2024, 1, 1⟩, some ⟨2024, 1, 31⟩, some 100⟩) 9).1 =
        Except.error "Object of type datetime is not JSON serializable" :=
  ⟨by decide, by rfl, by decide, by decide, by rfl, by rfl⟩

/-- C6 (amended): every call to `execute_query` either appends exactly one
audit record or raises having appended none.  When the parameters carry no
datetime bound, exactly one record is written, with the user question and
the elapsed-time measurement; the call returns a result dictionary, and the
record stores the executed SQL on success but the empty string for
`generated_sql` on any failure (the caught exception carries no `sql`
attribute) together with the error message.  When a `date_from`/`date_to`
datetime is supplied, `json.dumps` raises `TypeError` at both logging
sites, the call propagates the error, and zero records are written. -/
theorem nlq_c6_one_audit_record :
    ∀ (parse : String → Option (List Expr)) (render : Expr → String)
      (llm : String → NLQParams → Except String String)
      (dbExec : String → Except String (List Row))
      (nlg : String → String → List Row → Nat → String)
      (query : String) (parameters : Option NLQParams) (elapsedMs : Nat)
      (res : Except String QueryResult) (log : List NLQQueryRecord),
      executeQuery parse render llm dbExec nlg query parameters elapsedMs = (res, log) →
      (((parameters.getD ⟨none, none, none⟩).dateFrom = none ∧
          (parameters.getD ⟨none, none, none⟩).dateTo = none) →
        log.length = 1 ∧
          ∀ r ∈ log, r.userQuery = query ∧ r.executionTimeMs = elapsedMs ∧
            ∃ q, res = Except.ok q ∧
              (q.success = true →
                r.executedSuccessfully = true ∧ some r.generatedSql = q.sql ∧
                  r.errorMessage = none) ∧
              (q.success = false →
                r.executedSuccessfully = false ∧ r.generatedSql = "" ∧
                  r.errorMessage = q.error)) ∧
      (((parameters.getD ⟨none, none, none⟩).dateFrom ≠ none ∨
          (parameters.getD ⟨none, none, none⟩).dateTo ≠ none) →
        log = [] ∧ ∃ te, res = Except.error te) := by
  intro parse render llm dbExec nlg query parameters elapsedMs res log h
  unfold executeQuery at h
  dsimp only at h
  constructor
  · intro hdf
    obtain ⟨js, hjs⟩ := paramsDumps_ok_of_no_dates _ hdf.1 hdf.2
    cases hg : generateSql parse render llm query (parameters.getD ⟨none, none, none⟩) with
    | error e =>
      rw [hg] at h
      simp only [hjs] at h
      rw [Prod.mk.injEq] at h
      rw [← h.1, ← h.2]
      refine ⟨rfl, ?_⟩
      intro r hr
      rw [List.mem_singleton] at hr
      subst hr
      refine ⟨rfl, rfl, _, rfl, ?_, ?_⟩
      · intro hs; exact absurd hs (by simp)
      · intro _; exact ⟨rfl, rfl, rfl⟩
    | ok pair =>
      obtain ⟨sql, intent⟩ := pair
      rw [hg] at h
      dsimp only at h
      cases hd : dbExec sql with
      | error e =>
        rw [hd] at h
        simp only [hjs] at h
        rw [Prod.mk.injEq] at h
        rw [← h.1, ← h.2]
        refine ⟨rfl, ?_⟩
        intro r hr
        rw [List.mem_singleton] at hr
        subst hr
        refine ⟨rfl, rfl, _, rfl, ?_, ?_⟩
        · intro hs; exact absurd hs (by simp)
        · intro _; exact ⟨rfl, rfl, rfl⟩
      | ok rows =>
        rw [hd] at h
        dsimp only at h
        simp only [hjs] at h
        rw [Prod.mk.injEq] at h
        rw [← h.1, ← h.2]
        refine ⟨rfl, ?_⟩
        intro r hr
        rw [List.mem_singleton] at hr
        subst hr
        refine ⟨rfl, rfl, _, rfl, ?_, ?_⟩
        · intro _; exact ⟨rfl, rfl, rfl⟩
        · intro hs; exact absurd hs (by simp)
  · intro hdate
    have hte := paramsDumps_error_of_date _ hdate
    cases hg : generateSql parse render llm query (parameters.getD ⟨none, none, none⟩) with
    | error e =>
      rw [hg] at h
      simp only [hte] at h
      rw [Prod.mk.injEq] at h
      exact ⟨h.2.symm, _, h.1.symm⟩
    | ok pair =>
      obtain ⟨sql, intent⟩ := pair
      rw [hg] at h
      dsimp only at h
      cases hd : dbExec sql with
      | error e =>
        rw [hd] at h
        simp only [hte] at h
        rw [Prod.mk.injEq] at h
        exact ⟨h.2.symm, _, h.1.symm⟩
      | ok rows =>
        rw [hd] at h
        dsimp only at h
        simp only [hte] at h
        rw [Prod.mk.injEq] at h
        exact ⟨h.2.symm, _, h.1.symm⟩

/-- Witness for C6's amended theorem at concrete runs: a dateless call
writes exactly one record, and a dated call writes none. -/
theorem nlq_c6_witness :
    (executeQuery scenarioParse renderSql fixedSelectLlm emptyDb trivialNlg
        "show ids" none 5).2.length = 1 ∧
      (executeQuery scenarioParse renderSql fixedSelectLlm emptyDb trivialNlg
        "show ids" (some ⟨some ⟨2024, 1, 1⟩, none, none⟩) 5).2 = [] :=
  ⟨((nlq_c6_one_audit_record scenarioParse renderSql fixedSelectLlm emptyDb trivialNlg
      "show ids" none 5
      (executeQuery scenarioParse renderSql fixedSelectLlm emptyDb trivialNlg
        "show ids" none 5).1
      (executeQuery scenarioParse renderSql fixedSelectLlm emptyDb trivialNlg
        "show ids" none 5).2 rfl).1 ⟨rfl, rfl⟩).1,
   ((nlq_c6_one_audit_record scenarioParse renderSql fixedSelectLlm emptyDb trivialNlg
      "show ids" (some ⟨some ⟨2024, 1, 1⟩, none, none⟩) 5
      (executeQuery scenarioParse renderSql fixedSelectLlm emptyDb trivialNlg
        "show ids" (some ⟨some ⟨2024, 1, 1⟩, none, none⟩) 5).1
      (executeQuery scenarioParse renderSql fixedSelectLlm emptyDb trivialNlg
        "show ids" (some ⟨some ⟨2024, 1, 1⟩, none, none⟩) 5).2 rfl).2
     (Or.inl (by simp))).1⟩

/-- C9: template rendering returns `None` exactly for unmapped intents
(such as `custom`); the date filter is `transaction_date >= 'from' AND
transaction_date <= 'to'`, dropping whichever bound is absent and
degenerating to `1=1` when both are; and an absent limit parameter is
substituted as the fixed default 100. -/
theorem nlq_c9_template_rendering :
    (∀ (queryType : String) (p : NLQParams),
        QUERY_TEMPLATES.lookup queryType = none →
        selectQueryTemplate queryType p = none) ∧
    selectQueryTemplate "custom" emptyParams = none ∧
    (∀ d1 d2 : Date, generateDateFilter (some d1) (some d2) =
        "transaction_date >= '" ++ formatYMD d1 ++ "'" ++ " AND " ++
          ("transaction_date <= '" ++ formatYMD d2 ++ "'")) ∧
    (∀ d1 : Date, generateDateFilter (some d1) none =
        "transaction_date >= '" ++ formatYMD d1 ++ "'") ∧
    (∀ d2 : Date, generateDateFilter none (some d2) =
        "transaction_date <= '" ++ formatYMD d2 ++ "'") ∧
    generateDateFilter none none = "1=1" ∧
    (∀ (queryType template : String) (p : NLQParams),
        QUERY_TEMPLATES.lookup queryType = some template → p.limit = none →
        selectQueryTemplate queryType p =
          some (formatTemplate template
            (generateDateFilter p.dateFrom p.dateTo) 100)) := by
  refine ⟨?_, by decide, fun d1 d2 => rfl, fun d1 => rfl, fun d2 => rfl, rfl, ?_⟩
  · intro queryType p h
    simp [selectQueryTemplate, h]
  · intro queryType template p h hl
    simp [selectQueryTemplate, h, hl]

/-- Witness for C9 at concrete inputs: an unmapped intent yields `None`,
and `total_spend` with empty parameters renders with the default limit. -/
theorem nlq_c9_witness :
    selectQueryTemplate "open_the_pod_bay_doors" emptyParams = none ∧
      selectQueryTemplate "total_spend" emptyParams =
        some (formatTemplate
          "SELECT SUM(amount) as total FROM transactions WHERE amount < 0 AND {date_filter}"
          (generateDateFilter none none) 100) :=
  ⟨(nlq_c9_template_rendering).1 "open_the_pod_bay_doors" emptyParams (by decide),
   (nlq_c9_template_rendering).2.2.2.2.2.2 "total_spend"
     "SELECT SUM(amount) as total FROM transactions WHERE amount < 0 AND {date_filter}"
     emptyParams (by decide) rfl⟩

/-- C10: the intent classifier is a pure total function — its value is
always one of the fixed intents, it returns `recent_transactions` when no
keyword of any rule occurs in the lowercased question, it depends only on
the lowercased question (case-insensitive matching), and equal questions
classify equally. -/
theorem nlq_c10_classifier_total :
    (∀ q : String, classifyQueryIntent q ∈ intentValues) ∧
    (∀ q : String, (∀ w ∈ classifierKeywords, hasSub (lowerStr q) w = false) →
        classifyQueryIntent q = "recent_transactions") ∧
    (∀ q₁ q₂ : String, lowerStr q₁ = lowerStr q₂ →
        classifyQueryIntent q₁ = classifyQueryIntent q₂) ∧
    (∀ q₁ q₂ : String, q₁ = q₂ →
        classifyQueryIntent q₁ = classifyQueryIntent q₂) := by
  refine ⟨?_, ?_, ?_, ?_⟩
  · intro q
    simp only [classifyQueryIntent]
    split_ifs <;> decide
  · intro q h
    simp only [classifyQueryIntent, anyWordIn, List.any_cons, List.any_nil, Bool.or_false]
    rw [h "total" (by decide), h "sum" (by decide), h "spend" (by decide),
      h "spent" (by decide), h "income" (by decide), h "revenue" (by decide),
      h "earned" (by decide), h "monthly" (by decide), h "month" (by decide),
      h "trend" (by decide), h "vendor" (by decide), h "merchant" (by decide),
      h "company" (by decide), h "category" (by decide), h "count" (by decide),
      h "number" (by decide), h "how many" (by decide), h "average" (by decide),
      h "recent" (by decide), h "latest" (by decide), h "last" (by decide),
      h "anomal" (by decide)]
    simp
  · intro q₁ q₂ h
    simp only [classifyQueryIntent]
    rw [h]
  · intro q₁ q₂ h
    rw [h]

/-- Witness for C10 at a concrete input with no rule keyword. -/
theorem nlq_c10_witness :
    classifyQueryIntent "xyzq" = "recent_transactions" :=
  (nlq_c10_classifier_total).2.1 "xyzq" (by decide)

end Cashflow
